import Mathlib

/-!
Verification of the Infinizoomer tile-world core against its TypeScript source.

The embedding mirrors the source files:
* `src/unnamed/part_002` (the `App` component): tileization, world-continuity
  resolution, the enhancement pipeline (stitch, enhance, retile, merge) and
  the application state machine;
* `src/components/ImageDisplay.tsx`: the viewport transform (pan, zoom,
  wraparound tile lookup, vertical pan clamping, inference triggering);
* `src/utils/gpsUtils.ts`: the haversine distance;
* `src/utils/serviceCompareScenes.ts` and `src/utils/serviceEnhance.ts`:
  the failure contracts of the external services.

Rasters are modelled exactly: an image is a pair of pixel dimensions plus a
total pixel function (value `0` meaning a transparent/blank pixel, as on a
freshly created canvas).  JS `Map<string, TileData>` keyed by `"col:row"`
strings is modelled as a function from integer pairs to `Option TileData`
(per-key `set` is a pointwise override, which is exactly `Map` semantics).
-/

namespace Infinizoomer

/-- The `TILE_SIZE = 512` (src/unnamed/part_002, line 23). -/
def TILE_SIZE : ℕ := 512

/-- The `GPS_DISTANCE_THRESHOLD_METERS = 100` (src/unnamed/part_002, line 24). -/
def GPS_DISTANCE_THRESHOLD_METERS : ℕ := 100

/-- A decoded raster: pixel dimensions plus a pixel function.  `px i j = 0`
is a transparent/blank pixel; only values at `i < width`, `j < height` are
meaningful. -/
structure Image where
  width : ℕ
  height : ℕ
  px : ℕ → ℕ → ℕ

/-- The `TileData` (src/types.ts): a tile raster plus its `isEnhanced` flag. -/
structure TileData where
  image : Image
  isEnhanced : Bool

/-- The `Map<string, TileData>` keyed by `` `${x}:${y}` `` strings, modelled
as a function from the (column, row) key to an optional tile. -/
def TileMap : Type := ℤ × ℤ → Option TileData

/-- The empty `new Map()`. -/
def emptyTiles : TileMap := fun _ => none

/-- The `Rect` (src/types.ts) with integer coordinates, as produced for
tile-aligned rectangles such as `stitchedWorldRect`. -/
structure RectZ where
  x : ℤ
  y : ℤ
  w : ℤ
  h : ℤ

/-- The `Rect` (src/types.ts) with rational coordinates, for world rectangles
derived from the pan/zoom transform. -/
structure RectQ where
  x : ℚ
  y : ℚ
  w : ℚ
  h : ℚ

/-- The `AppState` (src/types.ts). -/
inductive AppState where
  | IDLE | LOADING | LOADED | SELECTING | ANALYZING | ENHANCING | ENHANCED | CAMERA_ACTIVE
deriving DecidableEq

/-- The `CaptureType` (src/types.ts). -/
inductive CaptureType where
  | EQUIRECTANGULAR | PERSPECTIVE
deriving DecidableEq

/-- The `GPSCoordinates` (src/types.ts): latitude/longitude in degrees. -/
structure GPSCoordinates where
  latitude : ℝ
  longitude : ℝ

/-- The `Capture` (src/types.ts).  The `id`, `camera` and `locationStatus`
fields are presentational metadata never read by the logic under
verification and are omitted. -/
structure Capture where
  type : CaptureType
  image : Image
  gps : Option GPSCoordinates

/-- The `App` component state (src/unnamed/part_002, lines 33-53): the
`useState` cells that the verified logic reads or writes.  `pan`/`zoom` are
only ever written with rational values by this logic, so they are carried
as rationals here; the real-valued wheel-zoom dynamics of `ImageDisplay`
are modelled separately over `ℝ`. -/
structure AppModel where
  appState : AppState
  captures : List Capture
  tiles : TileMap
  worldSize : ℕ × ℕ
  pan : ℚ × ℚ
  zoom : ℚ
  enhancementJob : Option (RectQ × RectQ)
  stitchedEnhanceImage : Option (Image × RectZ)
  enhancedResult : Option (Image × RectZ)
  isDefaultWorld : Bool
  hasFoundBanana : Bool
  showBananaBanner : Bool

/-- Modelled from the spec: `cropImage` lives in `src/utils/imageUtils.ts`,
which is not under `src/`; only its call sites are.  Per spec section 6,
`crop(image, rect, outWidth, outHeight) → raster` extracts the sub-raster
of `image` at `rect`; both call sites (tileization and retiling) pass
`outWidth = rect.w` and `outHeight = rect.h`, so no scaling is modelled.
Source pixels outside the image bounds read as transparent (`0`), as on an
HTML canvas `drawImage` with an out-of-range source rectangle. -/
def cropImage (img : Image) (rx ry : ℤ) (outW outH : ℕ) : Image where
  width := outW
  height := outH
  px := fun i j =>
    if 0 ≤ rx + i ∧ rx + i < (img.width : ℤ) ∧ 0 ≤ ry + j ∧ ry + j < (img.height : ℤ)
        ∧ i < outW ∧ j < outH then
      img.px (rx + i).toNat (ry + j).toNat
    else 0

/-- The `Math.ceil(img.naturalWidth / TILE_SIZE)` (src/unnamed/part_002,
line 58), in its executable integer form; `numCols_eq_ceil` below proves
it equal to the exact rational ceiling the source computes. -/
def numCols (W : ℕ) : ℕ := (W + TILE_SIZE - 1) / TILE_SIZE

/-- The `Math.ceil(img.naturalHeight / TILE_SIZE)` (src/unnamed/part_002,
line 59). -/
def numRows (H : ℕ) : ℕ := numCols H

/-- The tile map built by the loop of `tileizeImage` (src/unnamed/part_002,
lines 57-83): key `(x, y)` is set exactly when `0 ≤ x < numCols`,
`0 ≤ y < numRows` and the crop rectangle
`{x: x*T, y: y*T, w: min T (W - x*T), h: min T (H - y*T)}` has positive
width and height; the stored tile is the crop of the source image at that
rectangle with `isEnhanced = false`. -/
def tileizeTiles (img : Image) : TileMap := fun k =>
  if 0 ≤ k.1 ∧ k.1 < (numCols img.width : ℤ) ∧ 0 ≤ k.2 ∧ k.2 < (numRows img.height : ℤ) then
    let x := k.1.toNat
    let y := k.2.toNat
    let cw := min TILE_SIZE (img.width - x * TILE_SIZE)
    let ch := min TILE_SIZE (img.height - y * TILE_SIZE)
    if 0 < cw ∧ 0 < ch then
      some ⟨cropImage img (x * TILE_SIZE) (y * TILE_SIZE) cw ch, false⟩
    else none
  else none

/-- The `setWorldSize({width: img.naturalWidth, height: img.naturalHeight})`
(src/unnamed/part_002, line 84). -/
def tileizeWorldSize (img : Image) : ℕ × ℕ := (img.width, img.height)

/-- The stitched canvas built by `handleInpaint` (src/unnamed/part_002,
lines 343-366): a raster of `cols*T × rows*T` pixels; the tile stored at
key `(sX + u/T, sY + v/T)` is drawn at offset `((x-sX)*T, (y-sY)*T)` at
its natural size, and cells with no tile (or beyond a tile's extent) stay
transparent.  This is exactly the canvas contents whenever every stored
tile is at most `T × T` (which `tileizeImage` and the retiling loop both
guarantee), since then the drawn regions are pairwise disjoint. -/
def stitchedImage (m : TileMap) (sX sY : ℤ) (cols rows : ℕ) : Image where
  width := cols * TILE_SIZE
  height := rows * TILE_SIZE
  px := fun u v =>
    if u < cols * TILE_SIZE ∧ v < rows * TILE_SIZE then
      match m (sX + (u / TILE_SIZE : ℕ), sY + (v / TILE_SIZE : ℕ)) with
      | some t =>
          if u % TILE_SIZE < t.image.width ∧ v % TILE_SIZE < t.image.height then
            t.image.px (u % TILE_SIZE) (v % TILE_SIZE)
          else 0
      | none => 0
    else 0

/-- Every stored tile fits in its `T × T` cell; established by tileization
and by the retiling loop (which emits exactly `T × T` tiles). -/
def tilesBounded (m : TileMap) : Prop :=
  ∀ k t, m k = some t → t.image.width ≤ TILE_SIZE ∧ t.image.height ≤ TILE_SIZE

/-- The `handleInpaint` (src/unnamed/part_002, lines 334-376): a no-op unless
`appState === AppState.LOADED`; otherwise it rounds the visible world
rectangle outward to tile boundaries, stitches the overlapping tiles into
one raster, stores it with the expanded rectangle, creates the (single)
enhancement job and enters the `ENHANCING` phase.  The 2D-context-missing
early return (line 345) is not modelled (the context is always available
once the canvas exists). -/
def handleInpaint (s : AppModel) (worldRect screenRect : RectQ) : AppModel :=
  if s.appState ≠ AppState.LOADED then s
  else
    let startTileX : ℤ := ⌊worldRect.x / (TILE_SIZE : ℚ)⌋
    let startTileY : ℤ := ⌊worldRect.y / (TILE_SIZE : ℚ)⌋
    let endTileX : ℤ := ⌊(worldRect.x + worldRect.w) / (TILE_SIZE : ℚ)⌋
    let endTileY : ℤ := ⌊(worldRect.y + worldRect.h) / (TILE_SIZE : ℚ)⌋
    let stitchedWorldRect : RectZ :=
      ⟨startTileX * TILE_SIZE, startTileY * TILE_SIZE,
       (endTileX - startTileX + 1) * TILE_SIZE, (endTileY - startTileY + 1) * TILE_SIZE⟩
    let stitched := stitchedImage s.tiles startTileX startTileY
        (endTileX - startTileX + 1).toNat (endTileY - startTileY + 1).toNat
    { s with
      stitchedEnhanceImage := some (stitched, stitchedWorldRect)
      enhancementJob := some (worldRect, screenRect)
      appState := AppState.ENHANCING }

/-- The `triggerInference` (src/components/ImageDisplay.tsx, lines 117-127)
with the `isBusy={appState !== AppState.LOADED}` wiring of the `App`
component (src/unnamed/part_002, line 471): drops the trigger while busy,
and below the `zoom > 1.01` eligibility gate. -/
def triggerInference (s : AppModel) (zoom : ℚ) (worldRect screenRect : RectQ) : AppModel :=
  if s.appState ≠ AppState.LOADED then s
  else if zoom > 1.01 then handleInpaint s worldRect screenRect
  else s

/-- The retiling/merge step inside `handleEnhancementComplete`'s `onload`
continuation (src/unnamed/part_002, lines 386-413): every key of the
rounded span `[⌊wr.x/T⌋, ⌊(wr.x+wr.w)/T⌋] × [⌊wr.y/T⌋, ⌊(wr.y+wr.h)/T⌋]`
is overwritten with the `T × T` crop of the enhanced raster at that cell,
flagged `isEnhanced = true`; all other keys keep their previous tile
(`new Map([...prevTiles, ...updatedTiles])`). -/
def mergeRetile (m : TileMap) (E : Image) (wr : RectZ) : TileMap :=
  let startTileX := Int.fdiv wr.x TILE_SIZE
  let startTileY := Int.fdiv wr.y TILE_SIZE
  let endTileX := Int.fdiv (wr.x + wr.w) TILE_SIZE
  let endTileY := Int.fdiv (wr.y + wr.h) TILE_SIZE
  fun k =>
    if startTileX ≤ k.1 ∧ k.1 ≤ endTileX ∧ startTileY ≤ k.2 ∧ k.2 ≤ endTileY then
      some ⟨cropImage E (k.1 * TILE_SIZE - wr.x) (k.2 * TILE_SIZE - wr.y) TILE_SIZE TILE_SIZE, true⟩
    else m k

/-- The `onload` continuation of `handleEnhancementComplete`
(src/unnamed/part_002, lines 385-419), applied to whatever the component
state is when the enhanced raster finishes decoding: it merges the retiled
tiles into the current tile map and resets the transient job state —
without re-validating that the originating job or world is still current.
`er` is the `{src, worldRect}` pair captured when the continuation was
created. -/
def enhancementOnload (s : AppModel) (er : Image × RectZ) : AppModel :=
  { s with
    tiles := mergeRetile s.tiles er.1 er.2
    stitchedEnhanceImage := none
    enhancedResult := none
    appState := AppState.LOADED }

/-- The entry check of `handleEnhancementComplete` (src/unnamed/part_002,
lines 379-384): reads the current `enhancedResult`; if present, a decode
of its raster starts and the `onload` continuation above is queued with
the captured pair; otherwise nothing happens. -/
def enhancementCompleteStart (s : AppModel) : Option (Image × RectZ) :=
  s.enhancedResult

/-- The `performEnhancement` (src/unnamed/part_002, lines 311-331).
`svc = some (img, found)` models a resolved `serviceEnhance` call and
`svc = none` a rejected one; on rejection the stitched input itself is
stored as the result (the fallback of line 326).  Either way the app
enters `ENHANCED` and the job is destroyed. -/
def performEnhancement (s : AppModel) (svc : Option (Image × Bool)) : AppModel :=
  match s.stitchedEnhanceImage with
  | none => s
  | some (stitched, wr) =>
    match svc with
    | some (res, found) =>
      { s with
        enhancedResult := some (res, wr)
        hasFoundBanana := s.hasFoundBanana || found
        showBananaBanner := s.showBananaBanner || found
        appState := AppState.ENHANCED
        enhancementJob := none }
    | none =>
      { s with
        enhancedResult := some (stitched, wr)
        appState := AppState.ENHANCED
        enhancementJob := none }

/-- The `resetState` (src/unnamed/part_002, lines 234-243) together with the
synchronous head of the `loadInitialImage` it invokes (line 185, which
sets `LOADING` before suspending on the fetch). -/
def resetState (s : AppModel) : AppModel :=
  { s with
    captures := []
    tiles := emptyTiles
    showBananaBanner := false
    enhancementJob := none
    stitchedEnhanceImage := none
    enhancedResult := none
    isDefaultWorld := false
    appState := AppState.LOADING }

/-- JS `Math.atan2(y, x)`: the angle of the point `(x, y)` in `(-π, π]`,
with `atan2 0 0 = 0`. -/
noncomputable def atan2 (y x : ℝ) : ℝ :=
  if 0 < x then Real.arctan (y / x)
  else if x < 0 ∧ 0 ≤ y then Real.arctan (y / x) + Real.pi
  else if x < 0 then Real.arctan (y / x) - Real.pi
  else if 0 < y then Real.pi / 2
  else if y < 0 then -(Real.pi / 2)
  else 0

/-- The `calculateDistance` (src/utils/gpsUtils.ts, lines 14-27): haversine
great-circle distance in metres, Earth radius `6371e3`. -/
noncomputable def calculateDistance (c1 c2 : GPSCoordinates) : ℝ :=
  let R : ℝ := 6371000
  let phi1 := c1.latitude * Real.pi / 180
  let phi2 := c2.latitude * Real.pi / 180
  let dPhi := (c2.latitude - c1.latitude) * Real.pi / 180
  let dLam := (c2.longitude - c1.longitude) * Real.pi / 180
  let a := Real.sin (dPhi / 2) * Real.sin (dPhi / 2) +
      Real.cos phi1 * Real.cos phi2 * (Real.sin (dLam / 2) * Real.sin (dLam / 2))
  let c := 2 * atan2 (Real.sqrt a) (Real.sqrt (1 - a))
  R * c

/-- The `serviceCompareScenes` (src/utils/serviceCompareScenes.ts): on a
resolved API response the parsed `isSameScene` field (defaulting to
`false` when absent, line 60); on any caught error the conservative
`true` of line 63.  `response` is the outcome of the API call, with the
field optional. -/
def serviceCompareScenes (response : Except Unit (Option Bool)) : Bool :=
  match response with
  | Except.ok r => r.getD false
  | Except.error _ => true

/-- The two-valued world-continuity outcome of `handleNewCapture`:
`NEW_WORLD` means `startNewWorld` runs (tile store rebuilt), `SAME_WORLD`
means the capture is appended to the sequence. -/
inductive WorldDecision where
  | NEW_WORLD | SAME_WORLD
deriving DecidableEq

/-- The `isNewWorldGps` flag of `handleNewCapture` (src/unnamed/part_002,
lines 115-125): set when both captures carry GPS and the haversine
distance exceeds the threshold, or when only the new capture carries GPS
and the current world is the GPS-less default placeholder. -/
noncomputable def isNewWorldGpsCheck (newGps baseGps : Option GPSCoordinates)
    (isDefaultWorld : Bool) : Bool :=
  match newGps with
  | some g =>
    match baseGps with
    | some bg =>
      if calculateDistance g bg > (GPS_DISTANCE_THRESHOLD_METERS : ℝ) then true else false
    | none => isDefaultWorld
  | none => false

/-- The world-continuity decision implemented by `handleNewCapture`
(src/unnamed/part_002, lines 114-176), factored out of the inlined control
flow: GPS verdict first (lines 127-131); otherwise on a placeholder world
defer to the scene comparator (lines 133-165), whose failure
(`oracle = none`, the `catch` of line 153) conservatively keeps the world;
otherwise keep the world (lines 166-176). -/
noncomputable def resolverDecision (newGps baseGps : Option GPSCoordinates)
    (isDefaultWorld : Bool) (oracle : Option Bool) : WorldDecision :=
  if isNewWorldGpsCheck newGps baseGps isDefaultWorld then WorldDecision.NEW_WORLD
  else if isDefaultWorld then
    match oracle with
    | some isSameScene => if !isSameScene then WorldDecision.NEW_WORLD else WorldDecision.SAME_WORLD
    | none => WorldDecision.SAME_WORLD
  else WorldDecision.SAME_WORLD

/-- The `startNewWorld` (src/unnamed/part_002, lines 88-106): single-capture
sequence, fresh tileization, viewport reset, flags cleared, `LOADED`. -/
def startNewWorld (s : AppModel) (img : Image) (gps : Option GPSCoordinates) : AppModel :=
  { s with
    captures := [⟨CaptureType.EQUIRECTANGULAR, img, gps⟩]
    tiles := tileizeTiles img
    worldSize := tileizeWorldSize img
    pan := (0, 0)
    zoom := 1
    isDefaultWorld := false
    hasFoundBanana := false
    showBananaBanner := false
    appState := AppState.LOADED }

/-- The `PERSPECTIVE` capture record appended on a `SAME_WORLD` outcome
(src/unnamed/part_002, lines 142-149, 155-162, 167-174). -/
def perspectiveCapture (img : Image) (gps : Option GPSCoordinates) : Capture :=
  ⟨CaptureType.PERSPECTIVE, img, gps⟩

/-- The `handleNewCapture` (src/unnamed/part_002, lines 108-177).  `oracle`
is the outcome of the awaited `serviceCompareScenes` call: `some b` for a
resolved comparison and `none` for a rejection reaching the `catch` of
line 153.  On an empty capture list the image starts a new world
directly; otherwise the continuity decision above is acted on.  Both
placeholder-world `SAME_WORLD` paths set `LOADED` (lines 151, 164); the
non-placeholder append path leaves the phase unchanged (line 175). -/
noncomputable def handleNewCapture (s : AppModel) (img : Image)
    (gps : Option GPSCoordinates) (oracle : Option Bool) : AppModel :=
  match s.captures with
  | [] => startNewWorld s img gps
  | baseCapture :: _ =>
    match resolverDecision gps baseCapture.gps s.isDefaultWorld oracle with
    | WorldDecision.NEW_WORLD => startNewWorld s img gps
    | WorldDecision.SAME_WORLD =>
      if s.isDefaultWorld then
        { s with
          captures := s.captures ++ [perspectiveCapture img gps]
          appState := AppState.LOADED }
      else
        { s with captures := s.captures ++ [perspectiveCapture img gps] }

/-- The `onload` completion of `loadInitialImage` (src/unnamed/part_002,
lines 196-219): when no capture exists yet, installs the fetched default
image as a GPS-less baseline of a placeholder world. -/
def loadDefaultWorldDone (s : AppModel) (img : Image) : AppModel :=
  match s.captures with
  | _ :: _ => s
  | [] =>
    { s with
      captures := [⟨CaptureType.EQUIRECTANGULAR, img, none⟩]
      tiles := tileizeTiles img
      worldSize := tileizeWorldSize img
      pan := (0, 0)
      zoom := 1
      isDefaultWorld := true
      appState := AppState.LOADED }

/-- The events that mutate the `App` state cells modelled here. -/
inductive AppEvent where
  | newCapture (img : Image) (gps : Option GPSCoordinates) (oracle : Option Bool)
  | loadDefaultDone (img : Image)
  | reset
  | inpaint (worldRect screenRect : RectQ)
  | enhance (svc : Option (Image × Bool))
  | enhanceComplete (er : Image × RectZ)

/-- One transition of the modelled `App` state machine. -/
noncomputable def stepEvent (s : AppModel) : AppEvent → AppModel
  | AppEvent.newCapture img gps orc => handleNewCapture s img gps orc
  | AppEvent.loadDefaultDone img => loadDefaultWorldDone s img
  | AppEvent.reset => resetState s
  | AppEvent.inpaint wr sr => handleInpaint s wr sr
  | AppEvent.enhance svc => performEnhancement s svc
  | AppEvent.enhanceComplete er => enhancementOnload s er

/-- On a placeholder (default) world the baseline capture carries no GPS:
only `loadDefaultWorldDone` ever sets `isDefaultWorld`, and it stores a
GPS-less baseline. -/
def baselineGpsInv (s : AppModel) : Prop :=
  s.isDefaultWorld = true → ∀ base ∈ s.captures.head?, base.gps = none

/-! ### The viewport (src/components/ImageDisplay.tsx) -/

/-- Column wrap used by `draw` (src/components/ImageDisplay.tsx, line 85):
`((x % numWorldTilesX) + numWorldTilesX) % numWorldTilesX` with the JS
truncating remainder (`Int.tmod`). -/
def wrapCol (x n : ℤ) : ℤ := Int.tmod (Int.tmod x n + n) n

/-- Tile lookup as performed by `draw` (src/components/ImageDisplay.tsx,
lines 85-86): the column is wrapped modulo the world's column count, the
row is used as-is (rows outside the stored grid simply find no tile). -/
def lookupTile (m : TileMap) (numWorldTilesX : ℤ) (col row : ℤ) : Option TileData :=
  m (wrapCol col numWorldTilesX, row)

/-- One zoom operation, as fed to the zoom state: a wheel tick in either
direction, or one of the two toolbar buttons. -/
inductive ZoomOp where
  | wheel (zoomIn : Bool)
  | buttonIn
  | buttonOut

/-- The new zoom value of `handleWheel` (lines 189-192: exponential factor
`e^(±0.1)`, clamped to `[0.1, 50]`), `handleZoomIn` (line 276:
`min(zoom * 1.25, 50)`) and `handleZoomOut` (line 283:
`max(0.1, zoom / 1.25)`). -/
noncomputable def applyZoomOp (zoom : ℝ) : ZoomOp → ℝ
  | ZoomOp.wheel zoomIn =>
    let zoomFactor := if zoomIn then Real.exp 0.1 else Real.exp (-0.1)
    max 0.1 (min (zoom * zoomFactor) 50)
  | ZoomOp.buttonIn => min (zoom * 1.25) 50
  | ZoomOp.buttonOut => max 0.1 (zoom / 1.25)

/-- The vertical pan clamp stated by the spec: either the world overflows
the viewport and `pan.y ∈ [viewportHeight - worldHeight*zoom, 0]`, or the
world is vertically centered. -/
def vclampOk (panY zoom cssHeight worldHeight : ℝ) : Prop :=
  if worldHeight * zoom > cssHeight then
    cssHeight - worldHeight * zoom ≤ panY ∧ panY ≤ 0
  else panY = (cssHeight - worldHeight * zoom) / 2

/-- The `handleWheel` (src/components/ImageDisplay.tsx, lines 184-217) in the
non-busy, canvas-present case: exponential zoom factor, cursor-anchored
pan recomputation, then the vertical clamp of lines 199-209.  Returns the
new `(pan, zoom)`. -/
noncomputable def handleWheel (pan : ℝ × ℝ) (zoom : ℝ) (pos : ℝ × ℝ)
    (zoomIn : Bool) (cssHeight worldHeight : ℝ) : (ℝ × ℝ) × ℝ :=
  let zoomFactor := if zoomIn then Real.exp 0.1 else Real.exp (-0.1)
  let newZoom := max 0.1 (min (zoom * zoomFactor) 50)
  let newPanX := pan.1 - (pos.1 - pan.1) * (zoomFactor - 1)
  let rawPanY := pan.2 - (pos.2 - pan.2) * (zoomFactor - 1)
  let worldPixelHeight := worldHeight * newZoom
  let newPanY :=
    if worldPixelHeight > cssHeight then max (min rawPanY 0) (cssHeight - worldPixelHeight)
    else (cssHeight - worldPixelHeight) / 2
  ((newPanX, newPanY), newZoom)

/-- The pan update of `handleMouseMove` while dragging
(src/components/ImageDisplay.tsx, lines 231-254): a 1:1 screen-space
delta, with the same vertical clamp applied at the current zoom. -/
noncomputable def handleDragPan (pos panStart : ℝ × ℝ) (zoom cssHeight worldHeight : ℝ) :
    ℝ × ℝ :=
  let rawPanY := pos.2 - panStart.2
  let worldPixelHeight := worldHeight * zoom
  let newPanY :=
    if worldPixelHeight > cssHeight then max (min rawPanY 0) (cssHeight - worldPixelHeight)
    else (cssHeight - worldPixelHeight) / 2
  (pos.1 - panStart.1, newPanY)

/-- The `handleZoomIn` (lines 273-278): only the zoom changes, the pan is left
untouched. -/
noncomputable def handleZoomInBtn (pan : ℝ × ℝ) (zoom : ℝ) : (ℝ × ℝ) × ℝ :=
  (pan, min (zoom * 1.25) 50)

/-- The `handleZoomOut` (lines 280-284): only the zoom changes, the pan is
left untouched. -/
noncomputable def handleZoomOutBtn (pan : ℝ × ℝ) (zoom : ℝ) : (ℝ × ℝ) × ℝ :=
  (pan, max 0.1 (zoom / 1.25))

/-- The `handleResetZoom` (lines 286-302) with the canvas present: pan resets
to `(0, 0-or-centered)` and zoom to `1`. -/
noncomputable def handleResetZoom (cssHeight worldHeight : ℝ) : (ℝ × ℝ) × ℝ :=
  let worldPixelHeight := worldHeight * 1.0
  let newPanY := if worldPixelHeight > cssHeight then 0 else (cssHeight - worldPixelHeight) / 2
  ((0, newPanY), 1.0)

/-! ### Arithmetic helpers -/

theorem tmod_neg_dividend (x n : ℤ) : Int.tmod (-x) n = -(Int.tmod x n) := by
  rw [Int.tmod_def, Int.tmod_def, Int.neg_tdiv]
  ring

/-- The JS double-remainder normalisation computes the mathematical
(Euclidean) remainder for a positive modulus. -/
theorem wrapCol_eq_emod (x n : ℤ) (hn : 0 < n) : wrapCol x n = x % n := by
  unfold wrapCol
  have h1 : 0 ≤ Int.tmod x n + n := by
    rcases le_or_lt 0 x with hx | hx
    · have := Int.tmod_nonneg n hx; omega
    · have h2 : Int.tmod x n = -(Int.tmod (-x) n) := by rw [tmod_neg_dividend]; ring
      have h3 := Int.tmod_lt_of_pos (-x) hn
      omega
  rw [Int.tmod_eq_emod h1 (le_of_lt hn)]
  have h5 : Int.tmod x n + n = Int.tmod x n + n * 1 := by ring
  rw [h5, Int.add_mul_emod_self_left]
  have h6 : Int.tmod x n = x + n * (-(Int.tdiv x n)) := by
    have := Int.tmod_add_tdiv x n; linarith
  rw [h6, Int.add_mul_emod_self_left]

theorem lt_numCols_iff {W k : ℕ} : k < numCols W ↔ TILE_SIZE * k < W := by
  unfold numCols TILE_SIZE
  omega

theorem numCols_le_iff {W k : ℕ} : numCols W ≤ k ↔ W ≤ TILE_SIZE * k := by
  unfold numCols TILE_SIZE
  omega

/-- The integer form of `numCols` computes the exact rational ceiling
`Math.ceil(W / TILE_SIZE)` of the source. -/
theorem numCols_eq_ceil (W : ℕ) : numCols W = ⌈(W : ℚ) / (TILE_SIZE : ℚ)⌉₊ := by
  have hT : (0:ℚ) < (TILE_SIZE : ℚ) := by norm_num [TILE_SIZE]
  apply le_antisymm
  · have h1 : (W : ℚ) / (TILE_SIZE : ℚ) ≤ (⌈(W : ℚ) / (TILE_SIZE : ℚ)⌉₊ : ℚ) := Nat.le_ceil _
    rw [div_le_iff₀ hT] at h1
    have h2 : W ≤ ⌈(W : ℚ) / (TILE_SIZE : ℚ)⌉₊ * TILE_SIZE := by exact_mod_cast h1
    refine numCols_le_iff.mpr ?_
    rw [Nat.mul_comm]
    exact h2
  · rw [Nat.ceil_le, div_le_iff₀ hT]
    have h3 : W ≤ TILE_SIZE * numCols W := numCols_le_iff.mp le_rfl
    have h4 : W ≤ numCols W * TILE_SIZE := by rw [Nat.mul_comm]; exact h3
    exact_mod_cast h4

theorem le_tile_mul_numCols (W : ℕ) : W ≤ TILE_SIZE * numCols W :=
  numCols_le_iff.mp le_rfl

/-- In-range zoom values stay in range under one zoom operation. -/
theorem applyZoomOp_mem {z : ℝ} (h : 0.1 ≤ z ∧ z ≤ 50) (op : ZoomOp) :
    0.1 ≤ applyZoomOp z op ∧ applyZoomOp z op ≤ 50 := by
  obtain ⟨h1, h2⟩ := h
  cases op with
  | wheel zoomIn =>
    simp only [applyZoomOp]
    refine ⟨le_max_left _ _, max_le (by norm_num) (min_le_right _ _)⟩
  | buttonIn =>
    simp only [applyZoomOp]
    refine ⟨le_min (by nlinarith) (by norm_num), min_le_right _ _⟩
  | buttonOut =>
    simp only [applyZoomOp]
    have hd : z / 1.25 ≤ 50 := by
      rw [div_le_iff₀ (by norm_num : (0:ℝ) < 1.25)]
      nlinarith
    exact ⟨le_max_left _ _, max_le (by norm_num) hd⟩

/-! ### Concrete fixtures used by witnesses and counterexamples -/

/-- A concrete 512 × 512 source raster. -/
def demoImage512 : Image := ⟨512, 512, fun i j => i + 512 * j + 1⟩

/-- A concrete 1024 × 1024 source raster (a 2 × 2 tile grid). -/
def demoImage1024 : Image := ⟨1024, 1024, fun i j => i + 1024 * j + 1⟩

/-- A 0 × 512 degenerate raster: zero area with a nonzero height. -/
def demoImageZeroW : Image := ⟨0, 512, fun _ _ => 0⟩

/-- A single concrete tile. -/
def demoTile : TileData := ⟨⟨1, 1, fun _ _ => 1⟩, false⟩

/-- A tile map holding exactly one tile at key `(0, 0)`. -/
def demoTileMap : TileMap := fun k => if k = ((0:ℤ), (0:ℤ)) then some demoTile else none

/-- A concrete app state in a busy phase with a live enhancement job. -/
def busyDemoState : AppModel where
  appState := AppState.ENHANCING
  captures := []
  tiles := demoTileMap
  worldSize := (512, 512)
  pan := (0, 0)
  zoom := 2
  enhancementJob := some (⟨0, 0, 100, 100⟩, ⟨0, 0, 100, 100⟩)
  stitchedEnhanceImage := none
  enhancedResult := none
  isDefaultWorld := false
  hasFoundBanana := false
  showBananaBanner := false

/-! ### C1 -/

/-- C1: while an enhancement job is live (any busy phase, i.e. the state
is not `LOADED`), a further inpaint trigger is a no-op: `triggerInference`
drops it and `handleInpaint` returns the state unchanged, creating no job
and mutating nothing — so at most one `EnhancementJob` (an `Option`-typed
cell) exists and the tile store is mutated at most once per job. -/
theorem c1_busy_inpaint_noop (s : AppModel) (z : ℚ) (worldRect screenRect : RectQ)
    (hbusy : s.appState ≠ AppState.LOADED) :
    handleInpaint s worldRect screenRect = s ∧
    triggerInference s z worldRect screenRect = s := by
  constructor
  · simp only [handleInpaint, if_pos hbusy]
  · simp only [triggerInference, if_pos hbusy]

/-- Witness for C1 at a concrete busy state. -/
theorem c1_busy_inpaint_noop_w :
    handleInpaint busyDemoState ⟨0, 0, 100, 100⟩ ⟨0, 0, 100, 100⟩ = busyDemoState ∧
    triggerInference busyDemoState 2 ⟨0, 0, 100, 100⟩ ⟨0, 0, 100, 100⟩ = busyDemoState :=
  c1_busy_inpaint_noop busyDemoState 2 ⟨0, 0, 100, 100⟩ ⟨0, 0, 100, 100⟩ (by decide)

/-! ### C9 -/

/-- C9: tile lookup wraps columns modulo the world's column count:
`lookup(c, r) = lookup(((c mod n) + n) mod n, r)` for every integer column
`c`, and in particular `lookup(n, r) = lookup(0, r)`. -/
theorem c9_lookup_wraps (m : TileMap) (n c r : ℤ) (hn : 0 < n) :
    lookupTile m n c r = lookupTile m n ((c % n + n) % n) r ∧
    lookupTile m n n r = lookupTile m n 0 r := by
  have hkey : ∀ a b : ℤ, a % n = b % n → lookupTile m n a r = lookupTile m n b r := by
    intro a b hab
    unfold lookupTile
    rw [wrapCol_eq_emod a n hn, wrapCol_eq_emod b n hn, hab]
  constructor
  · refine hkey c ((c % n + n) % n) ?_
    have h1 : c % n + n = c % n + n * 1 := by ring
    rw [h1, Int.add_mul_emod_self_left]
    simp [Int.emod_emod_of_dvd]
  · refine hkey n 0 ?_
    simp

/-- Witness for C9 at a concrete tile map and column count. -/
theorem c9_lookup_wraps_w :
    lookupTile demoTileMap 2 5 0 = lookupTile demoTileMap 2 ((5 % 2 + 2) % 2) 0 ∧
    lookupTile demoTileMap 2 2 0 = lookupTile demoTileMap 2 0 0 :=
  c9_lookup_wraps demoTileMap 2 5 0 (by decide)

/-! ### C8 -/

/-- C8: starting from any zoom in `[0.1, 50]`, every sequence of
wheel-zoom and button zoom-in/zoom-out operations keeps the zoom within
`[0.1, 50]` — in particular after every intermediate operation, since any
intermediate value is the fold of a prefix. -/
theorem c8_zoom_bounded (z : ℝ) (hz : 0.1 ≤ z ∧ z ≤ 50) (ops : List ZoomOp) :
    0.1 ≤ ops.foldl applyZoomOp z ∧ ops.foldl applyZoomOp z ≤ 50 := by
  induction ops generalizing z with
  | nil => simpa using hz
  | cons op rest ih => exact ih _ (applyZoomOp_mem hz op)

/-- Witness for C8 at a concrete start zoom and operation list. -/
theorem c8_zoom_bounded_w :
    0.1 ≤ [ZoomOp.buttonIn, ZoomOp.wheel true].foldl applyZoomOp 1 ∧
    [ZoomOp.buttonIn, ZoomOp.wheel true].foldl applyZoomOp 1 ≤ 50 :=
  c8_zoom_bounded 1 (by norm_num) [ZoomOp.buttonIn, ZoomOp.wheel true]

/-! ### C10 -/

/-- C10 counterexample: the claim says the vertical clamp holds after
*every* pan or zoom change including button zoom, but `handleZoomOut`
(src/components/ImageDisplay.tsx, lines 280-284) changes only the zoom and
never recomputes `pan.y`.  Starting from the centered state
`pan.y = 0, zoom = 0.5` with a 500-px viewport and a 1000-px world (which
satisfies the clamp), one zoom-out button press yields `zoom = 0.4` with
`pan.y` still `0`, while the clamp demands the centered value `50`. -/
theorem c10_counterexample :
    vclampOk 0 0.5 500 1000 ∧
    handleZoomOutBtn (0, 0) 0.5 = ((0, 0), 0.4) ∧
    ¬ vclampOk ((handleZoomOutBtn (0, 0) 0.5).1.2) ((handleZoomOutBtn (0, 0) 0.5).2) 500 1000 := by
  refine ⟨?_, ?_, ?_⟩
  · simp only [vclampOk]
    norm_num
  · simp only [handleZoomOutBtn]
    norm_num
  · simp only [handleZoomOutBtn, vclampOk]
    norm_num

/-- C10 (amended): the vertical pan clamp holds after every wheel zoom,
drag pan and view reset; the two zoom buttons change only the zoom and
leave `pan.y` untouched, so the clamp can be violated until the next
wheel/drag/reset event. -/
theorem c10_amended_vclamp (pan pos panStart : ℝ × ℝ) (zoom cssHeight worldHeight : ℝ)
    (zoomIn : Bool) :
    vclampOk (handleWheel pan zoom pos zoomIn cssHeight worldHeight).1.2
      (handleWheel pan zoom pos zoomIn cssHeight worldHeight).2 cssHeight worldHeight ∧
    vclampOk (handleDragPan pos panStart zoom cssHeight worldHeight).2
      zoom cssHeight worldHeight ∧
    vclampOk (handleResetZoom cssHeight worldHeight).1.2
      (handleResetZoom cssHeight worldHeight).2 cssHeight worldHeight ∧
    (handleZoomInBtn pan zoom).1 = pan ∧ (handleZoomOutBtn pan zoom).1 = pan := by
  refine ⟨?_, ?_, ?_, rfl, rfl⟩
  · simp only [handleWheel, vclampOk]
    split_ifs <;>
      first
        | rfl
        | · refine ⟨le_max_right _ _, max_le (min_le_right _ _) ?_⟩
            linarith
  · simp only [handleDragPan, vclampOk]
    split_ifs with h
    · exact ⟨le_max_right _ _, max_le (min_le_right _ _) (by linarith)⟩
    · rfl
  · simp only [handleResetZoom, vclampOk]
    split_ifs with h
    · constructor <;> linarith
    · rfl

/-! ### C2 -/

/-- A concrete loaded world whose enhancement result is awaiting decode:
the state right after `performEnhancement` stored the enhanced raster for
the whole one-tile world. -/
def pendingResultState : AppModel where
  appState := AppState.ENHANCED
  captures := [⟨CaptureType.EQUIRECTANGULAR, demoImage512, none⟩]
  tiles := tileizeTiles demoImage512
  worldSize := (512, 512)
  pan := (0, 0)
  zoom := 2
  enhancementJob := none
  stitchedEnhanceImage := some (demoImage512, ⟨0, 0, 512, 512⟩)
  enhancedResult := some (demoImage512, ⟨0, 0, 512, 512⟩)
  isDefaultWorld := false
  hasFoundBanana := false
  showBananaBanner := false

/-- C2 is violated by the code: `handleEnhancementComplete` starts the
decode with the captured `{src, worldRect}` pair, and its `onload`
continuation merges into whatever tile map is current without any
re-validation.  Concretely: the decode starts from `pendingResultState`,
`resetState` then clears the world (`tiles = emptyTiles`), yet when the
decode finishes the stale retiled tiles are merged into the freshly-reset
store — tile `(0, 0)` reappears, flagged enhanced, instead of the stale
result being discarded. -/
theorem c2_stale_merge_after_reset :
    enhancementCompleteStart pendingResultState = some (demoImage512, ⟨0, 0, 512, 512⟩) ∧
    (resetState pendingResultState).tiles = emptyTiles ∧
    (((enhancementOnload (resetState pendingResultState)
        (demoImage512, ⟨0, 0, 512, 512⟩)).tiles (0, 0)).map TileData.isEnhanced) = some true := by
  refine ⟨rfl, rfl, ?_⟩
  show ((mergeRetile emptyTiles demoImage512 ⟨0, 0, 512, 512⟩ (0, 0)).map TileData.isEnhanced)
      = some true
  rfl

/-! ### C3: tileization -/

/-- The grid of valid tile keys for a `W × H` world. -/
def gridKeys (W H : ℕ) : Finset (ℤ × ℤ) :=
  Finset.Ico (0:ℤ) (numCols W) ×ˢ Finset.Ico (0:ℤ) (numRows H)

theorem gridKeys_card (W H : ℕ) : (gridKeys W H).card = numCols W * numRows H := by
  unfold gridKeys
  rw [Finset.card_product, Int.card_Ico, Int.card_Ico]
  simp

/-- Tileization stores a tile exactly at the in-grid keys. -/
theorem tileize_isSome_iff (img : Image) (c r : ℤ) :
    (tileizeTiles img (c, r)).isSome = true ↔
      (0 ≤ c ∧ c < (numCols img.width : ℤ) ∧ 0 ≤ r ∧ r < (numRows img.height : ℤ)) := by
  by_cases h : 0 ≤ c ∧ c < (numCols img.width : ℤ) ∧ 0 ≤ r ∧ r < (numRows img.height : ℤ)
  · obtain ⟨h1, h2, h3, h4⟩ := h
    have hx : c.toNat < numCols img.width := by omega
    have hy : r.toNat < numCols img.height := by
      have h4' : r < (numCols img.height : ℤ) := h4
      omega
    have hw : TILE_SIZE * c.toNat < img.width := lt_numCols_iff.mp hx
    have hh : TILE_SIZE * r.toNat < img.height := lt_numCols_iff.mp hy
    have hguard : 0 < min TILE_SIZE (img.width - c.toNat * TILE_SIZE) ∧
        0 < min TILE_SIZE (img.height - r.toNat * TILE_SIZE) := by
      simp only [TILE_SIZE] at hw hh ⊢
      omega
    simp only [tileizeTiles]
    rw [if_pos ⟨h1, h2, h3, h4⟩, if_pos hguard]
    simp [h1, h2, h3, h4]
  · simp only [tileizeTiles]
    rw [if_neg h]
    simp [h]

/-- The tile stored at an in-grid key is exactly the crop of the source at
the rectangle `(x*T, y*T, min T (W - x*T), min T (H - y*T))`, unenhanced. -/
theorem tileize_tile_eq (img : Image) (x y : ℕ)
    (hx : x < numCols img.width) (hy : y < numRows img.height) :
    tileizeTiles img ((x : ℤ), (y : ℤ)) =
      some ⟨cropImage img ((x * TILE_SIZE : ℕ) : ℤ) ((y * TILE_SIZE : ℕ) : ℤ)
          (min TILE_SIZE (img.width - x * TILE_SIZE))
          (min TILE_SIZE (img.height - y * TILE_SIZE)), false⟩ := by
  have hy' : y < numCols img.height := hy
  have hw : TILE_SIZE * x < img.width := lt_numCols_iff.mp hx
  have hh : TILE_SIZE * y < img.height := lt_numCols_iff.mp hy'
  have hcond : 0 ≤ (x : ℤ) ∧ (x : ℤ) < (numCols img.width : ℤ) ∧
      0 ≤ (y : ℤ) ∧ (y : ℤ) < (numRows img.height : ℤ) := by
    refine ⟨by positivity, by exact_mod_cast hx, by positivity, by exact_mod_cast hy⟩
  have hguard : 0 < min TILE_SIZE (img.width - ((x : ℤ)).toNat * TILE_SIZE) ∧
      0 < min TILE_SIZE (img.height - ((y : ℤ)).toNat * TILE_SIZE) := by
    simp only [Int.toNat_natCast]
    simp only [TILE_SIZE] at hw hh ⊢
    omega
  simp only [tileizeTiles]
  rw [if_pos hcond, if_pos hguard]
  simp [Int.toNat_natCast]

/-- All tileized tiles fit within their `T × T` cells. -/
theorem tileize_bounded (img : Image) : tilesBounded (tileizeTiles img) := by
  intro k t ht
  simp only [tileizeTiles] at ht
  split_ifs at ht with h1 h2
  · cases ht
    exact ⟨min_le_left _ _, min_le_left _ _⟩

/-- Membership in one horizontal strip of the tiling is equivalent to
being in the unique strip `p / T`. -/
theorem strip_mem_iff {W p x : ℕ} (hp : p < W) :
    (x * TILE_SIZE ≤ p ∧ p < x * TILE_SIZE + min TILE_SIZE (W - x * TILE_SIZE)) ↔
      x = p / TILE_SIZE := by
  simp only [TILE_SIZE]
  omega

/-- C3 (amended): `tileize` stores exactly one tile per key `(x, y)` with
`0 ≤ x < ⌈W/T⌉` and `0 ≤ y < ⌈H/T⌉` — `⌈W/T⌉ * ⌈H/T⌉` tiles in all —
where tile `(x, y)` is the crop at rectangle
`(x*T, y*T, min T (W - x*T), min T (H - y*T))`; these rectangles tile
`[0,W) × [0,H)` with no gaps and no overlaps.  A zero-area image yields an
empty tile map, and the stored world size equals the source dimensions
`(W, H)` — which is `0 × 0` exactly when both dimensions are zero. -/
theorem c3_amended_tileize (img : Image) :
    (∀ c r : ℤ, (tileizeTiles img (c, r)).isSome = true ↔
        (0 ≤ c ∧ c < (numCols img.width : ℤ) ∧ 0 ≤ r ∧ r < (numRows img.height : ℤ))) ∧
    (gridKeys img.width img.height).card = numCols img.width * numRows img.height ∧
    (∀ k : ℤ × ℤ, k ∈ gridKeys img.width img.height ↔ (tileizeTiles img k).isSome = true) ∧
    (∀ x y : ℕ, x < numCols img.width → y < numRows img.height →
        tileizeTiles img ((x : ℤ), (y : ℤ)) =
          some ⟨cropImage img ((x * TILE_SIZE : ℕ) : ℤ) ((y * TILE_SIZE : ℕ) : ℤ)
              (min TILE_SIZE (img.width - x * TILE_SIZE))
              (min TILE_SIZE (img.height - y * TILE_SIZE)), false⟩) ∧
    (∀ p q : ℕ, p < img.width → q < img.height →
        ∃! xy : ℕ × ℕ, xy.1 < numCols img.width ∧ xy.2 < numRows img.height ∧
          xy.1 * TILE_SIZE ≤ p ∧
          p < xy.1 * TILE_SIZE + min TILE_SIZE (img.width - xy.1 * TILE_SIZE) ∧
          xy.2 * TILE_SIZE ≤ q ∧
          q < xy.2 * TILE_SIZE + min TILE_SIZE (img.height - xy.2 * TILE_SIZE)) ∧
    ((img.width = 0 ∨ img.height = 0) → ∀ k : ℤ × ℤ, tileizeTiles img k = none) ∧
    tileizeWorldSize img = (img.width, img.height) := by
  refine ⟨tileize_isSome_iff img, gridKeys_card _ _, ?_, tileize_tile_eq img, ?_, ?_, rfl⟩
  · intro k
    rw [show k = (k.1, k.2) from rfl, tileize_isSome_iff img k.1 k.2]
    unfold gridKeys
    rw [Finset.mem_product, Finset.mem_Ico, Finset.mem_Ico]
    tauto
  · intro p q hp hq
    have hxlt : p / TILE_SIZE < numCols img.width := by
      refine lt_numCols_iff.mpr ?_
      simp only [TILE_SIZE] at *
      omega
    have hylt : q / TILE_SIZE < numCols img.height := by
      refine lt_numCols_iff.mpr ?_
      simp only [TILE_SIZE] at *
      omega
    refine ⟨(p / TILE_SIZE, q / TILE_SIZE), ⟨hxlt, hylt, ?_⟩, ?_⟩
    · have h1 := (strip_mem_iff (W := img.width) (p := p) (x := p / TILE_SIZE) hp).mpr rfl
      have h2 := (strip_mem_iff (W := img.height) (p := q) (x := q / TILE_SIZE) hq).mpr rfl
      exact ⟨h1.1, h1.2, h2.1, h2.2⟩
    · rintro ⟨x, y⟩ ⟨-, -, hx1, hx2, hy1, hy2⟩
      have h1 := (strip_mem_iff (W := img.width) (p := p) (x := x) hp).mp ⟨hx1, hx2⟩
      have h2 := (strip_mem_iff (W := img.height) (p := q) (x := y) hq).mp ⟨hy1, hy2⟩
      simp [h1, h2]
  · intro h k
    simp only [tileizeTiles]
    rw [if_neg]
    rintro ⟨h1, h2, h3, h4⟩
    have hz : numCols 0 = 0 := by
      unfold numCols TILE_SIZE
      omega
    rcases h with h | h
    · rw [h, hz] at h2
      omega
    · have h4' : k.2 < (numCols img.height : ℤ) := h4
      rw [h, hz] at h4'
      omega

/-- Witness for C3 at a concrete 1024 × 1024 image: the key `(1, 1)` is
stored. -/
theorem c3_amended_tileize_w :
    (tileizeTiles demoImage1024 ((1 : ℤ), (1 : ℤ))).isSome = true :=
  ((c3_amended_tileize demoImage1024).1 1 1).mpr (by decide)

/-- C3 counterexample: the claim asserts that a zero-area image yields
world size `0 × 0`, but `tileizeImage` stores the raw source dimensions —
a `0 × 512` degenerate raster yields world size `(0, 512) ≠ (0, 0)` (its
tile map is empty, as the amended statement records). -/
theorem c3_counterexample :
    tileizeWorldSize demoImageZeroW = (0, 512) ∧ ((0, 512) : ℕ × ℕ) ≠ ((0, 0) : ℕ × ℕ) :=
  ⟨rfl, by decide⟩

/-! ### C4: the stored-key invariant under TileStore mutations -/

/-- The retiling merge never removes a stored tile: every key either gets
a fresh enhanced tile or keeps its previous one. -/
theorem mergeRetile_isSome_mono (m : TileMap) (E : Image) (wr : RectZ) (k : ℤ × ℤ)
    (h : (m k).isSome = true) : (mergeRetile m E wr k).isSome = true := by
  simp only [mergeRetile]
  split_ifs with h1
  · rfl
  · exact h

/-- Folding any list of retiling merges over a tile map keeps every
already-stored key stored. -/
theorem foldl_mergeRetile_isSome (jobs : List (Image × RectZ)) (m : TileMap) (k : ℤ × ℤ)
    (h : (m k).isSome = true) :
    ((jobs.foldl (fun m j => mergeRetile m j.1 j.2) m) k).isSome = true := by
  induction jobs generalizing m with
  | nil => exact h
  | cons job rest ih => exact ih _ (mergeRetile_isSome_mono m job.1 job.2 k h)

/-- C4 (amended): after tileizing a world and then applying any sequence
of retiling merges, every in-grid key `(c, r)` (with
`0 ≤ c < ⌈W/T⌉`, `0 ≤ r < ⌈H/T⌉`) still holds exactly one stored tile.
(The unamended claim is refuted by `c4_counterexample`: a merge whose
rounded span reaches the world edge also inserts keys outside the grid,
so the stored key set can strictly exceed the grid.) -/
theorem c4_amended_grid_preserved (img : Image) (jobs : List (Image × RectZ)) (c r : ℤ)
    (hc : 0 ≤ c ∧ c < (numCols img.width : ℤ))
    (hr : 0 ≤ r ∧ r < (numRows img.height : ℤ)) :
    ((jobs.foldl (fun m j => mergeRetile m j.1 j.2) (tileizeTiles img)) (c, r)).isSome
      = true :=
  foldl_mergeRetile_isSome jobs (tileizeTiles img) (c, r)
    ((tileize_isSome_iff img c r).mpr ⟨hc.1, hc.2, hr.1, hr.2⟩)

/-- C4 counterexample: tileizing the 1024 × 1024 demo image gives the
2 × 2 grid `{0,1} × {0,1}`, but one retiling merge whose `worldRect` is
the whole world (`(0,0,1024,1024)`, a rect the pipeline itself produces
for a one-past-the-edge stitched span) stores a tile at column 2 — a key
outside the grid — because the merge loop runs to
`Math.floor((wr.x + wr.w) / T)` inclusive. -/
theorem c4_counterexample :
    ((mergeRetile (tileizeTiles demoImage1024) demoImage1024 ⟨0, 0, 1024, 1024⟩)
        ((2 : ℤ), (0 : ℤ))).isSome = true ∧
    ¬ ((2 : ℤ) < (numCols demoImage1024.width : ℤ)) := by
  constructor
  · rfl
  · decide

/-- Witness for C4 at a concrete image, merge list and in-grid key. -/
theorem c4_amended_grid_preserved_w :
    (([((demoImage1024, ⟨0, 0, 1024, 1024⟩) : Image × RectZ)].foldl
        (fun m j => mergeRetile m j.1 j.2) (tileizeTiles demoImage1024)) (1, 1)).isSome
      = true :=
  c4_amended_grid_preserved demoImage1024 [(demoImage1024, ⟨0, 0, 1024, 1024⟩)] 1 1
    (by constructor <;> decide) (by constructor <;> decide)

/-! ### C7: enhancer failure is a pixel no-op (but flips `isEnhanced`) -/

/-- The `serviceEnhance` (src/utils/serviceEnhance.ts): never rejects; on any
caught API error it returns the input raster unchanged with no banana flag
(lines 80-83).  `api = none` models that failure path, `api = some r` a
successful generation. -/
def serviceEnhance (input : Image) (api : Option (Image × Bool)) : Image × Bool :=
  match api with
  | some r => r
  | none => (input, false)

/-- Value of the retiling merge at a key inside the span of a tile-aligned
`worldRect` (the shape `handleInpaint` always produces). -/
theorem mergeRetile_at_span (m : TileMap) (E : Image) (sX sY : ℤ) (cols rows : ℕ)
    (dx dy : ℕ) (hdx : dx < cols) (hdy : dy < rows) :
    mergeRetile m E
        ⟨sX * TILE_SIZE, sY * TILE_SIZE, (cols : ℤ) * TILE_SIZE, (rows : ℤ) * TILE_SIZE⟩
        (sX + dx, sY + dy)
      = some ⟨cropImage E ((dx : ℤ) * TILE_SIZE) ((dy : ℤ) * TILE_SIZE) TILE_SIZE TILE_SIZE,
              true⟩ := by
  have hT : ((TILE_SIZE : ℕ) : ℤ) ≠ 0 := by norm_num [TILE_SIZE]
  have e1 : Int.fdiv (sX * TILE_SIZE) TILE_SIZE = sX := Int.mul_fdiv_cancel _ hT
  have e2 : Int.fdiv (sY * TILE_SIZE) TILE_SIZE = sY := Int.mul_fdiv_cancel _ hT
  have e3 : Int.fdiv (sX * TILE_SIZE + (cols : ℤ) * TILE_SIZE) TILE_SIZE = sX + cols := by
    have h : sX * ((TILE_SIZE : ℕ) : ℤ) + (cols : ℤ) * TILE_SIZE
        = (sX + cols) * TILE_SIZE := by ring
    rw [h, Int.mul_fdiv_cancel _ hT]
  have e4 : Int.fdiv (sY * TILE_SIZE + (rows : ℤ) * TILE_SIZE) TILE_SIZE = sY + rows := by
    have h : sY * ((TILE_SIZE : ℕ) : ℤ) + (rows : ℤ) * TILE_SIZE
        = (sY + rows) * TILE_SIZE := by ring
    rw [h, Int.mul_fdiv_cancel _ hT]
  simp only [mergeRetile, e1, e2, e3, e4]
  rw [if_pos ⟨by omega, by omega, by omega, by omega⟩]
  have hx : (sX + (dx : ℤ)) * TILE_SIZE - sX * TILE_SIZE = (dx : ℤ) * TILE_SIZE := by ring
  have hy : (sY + (dy : ℤ)) * TILE_SIZE - sY * TILE_SIZE = (dy : ℤ) * TILE_SIZE := by ring
  rw [hx, hy]

/-- Cropping the stitched raster back at a cell of the span returns the
pixels of the tile that was stitched there. -/
theorem retile_of_stitched_preserves (m : TileMap) (sX sY : ℤ) (cols rows : ℕ)
    (hb : tilesBounded m) (dx dy : ℕ) (hdx : dx < cols) (hdy : dy < rows)
    (t : TileData) (ht : m (sX + dx, sY + dy) = some t)
    (i j : ℕ) (hi : i < t.image.width) (hj : j < t.image.height) :
    (cropImage (stitchedImage m sX sY cols rows) ((dx : ℤ) * TILE_SIZE) ((dy : ℤ) * TILE_SIZE)
        TILE_SIZE TILE_SIZE).px i j = t.image.px i j := by
  obtain ⟨hbw, hbh⟩ := hb _ _ ht
  have hiT : i < TILE_SIZE := lt_of_lt_of_le hi hbw
  have hjT : j < TILE_SIZE := lt_of_lt_of_le hj hbh
  have hu : ((dx : ℤ) * TILE_SIZE + i).toNat = dx * TILE_SIZE + i := by
    have h : (dx : ℤ) * TILE_SIZE + i = ((dx * TILE_SIZE + i : ℕ) : ℤ) := by push_cast; ring
    rw [h, Int.toNat_natCast]
  have hv : ((dy : ℤ) * TILE_SIZE + j).toNat = dy * TILE_SIZE + j := by
    have h : (dy : ℤ) * TILE_SIZE + j = ((dy * TILE_SIZE + j : ℕ) : ℤ) := by push_cast; ring
    rw [h, Int.toNat_natCast]
  have hub : dx * TILE_SIZE + i < cols * TILE_SIZE := by
    simp only [TILE_SIZE] at hiT ⊢
    omega
  have hvb : dy * TILE_SIZE + j < rows * TILE_SIZE := by
    simp only [TILE_SIZE] at hjT ⊢
    omega
  have hdiv1 : (dx * TILE_SIZE + i) / TILE_SIZE = dx := by
    simp only [TILE_SIZE] at hiT ⊢
    omega
  have hdiv2 : (dy * TILE_SIZE + j) / TILE_SIZE = dy := by
    simp only [TILE_SIZE] at hjT ⊢
    omega
  have hmod1 : (dx * TILE_SIZE + i) % TILE_SIZE = i := by
    simp only [TILE_SIZE] at hiT ⊢
    omega
  have hmod2 : (dy * TILE_SIZE + j) % TILE_SIZE = j := by
    simp only [TILE_SIZE] at hjT ⊢
    omega
  have hguard : 0 ≤ (dx : ℤ) * TILE_SIZE + i ∧
      (dx : ℤ) * TILE_SIZE + i < ((cols * TILE_SIZE : ℕ) : ℤ) ∧
      0 ≤ (dy : ℤ) * TILE_SIZE + j ∧
      (dy : ℤ) * TILE_SIZE + j < ((rows * TILE_SIZE : ℕ) : ℤ) ∧
      i < TILE_SIZE ∧ j < TILE_SIZE := by
    refine ⟨by positivity, ?_, by positivity, ?_, hiT, hjT⟩
    · rw [show (dx : ℤ) * TILE_SIZE + i = ((dx * TILE_SIZE + i : ℕ) : ℤ) by push_cast; ring]
      exact_mod_cast hub
    · rw [show (dy : ℤ) * TILE_SIZE + j = ((dy * TILE_SIZE + j : ℕ) : ℤ) by push_cast; ring]
      exact_mod_cast hvb
  simp only [cropImage, stitchedImage]
  rw [if_pos hguard]
  rw [hu, hv]
  rw [if_pos ⟨hub, hvb⟩, hdiv1, hdiv2, ht, hmod1, hmod2]
  show (if i < t.image.width ∧ j < t.image.height then t.image.px i j else 0) = t.image.px i j
  rw [if_pos ⟨hi, hj⟩]

/-- A concrete app state mid-job: the whole one-tile world has been
stitched and the job is awaiting the enhancer. -/
def stitchPendingState : AppModel where
  appState := AppState.ENHANCING
  captures := [⟨CaptureType.EQUIRECTANGULAR, demoImage512, none⟩]
  tiles := tileizeTiles demoImage512
  worldSize := (512, 512)
  pan := (0, 0)
  zoom := 2
  enhancementJob := some (⟨0, 0, 512, 512⟩, ⟨0, 0, 512, 512⟩)
  stitchedEnhanceImage := some (stitchedImage (tileizeTiles demoImage512) 0 0 1 1,
    ⟨0, 0, 512, 512⟩)
  enhancedResult := none
  isDefaultWorld := false
  hasFoundBanana := false
  showBananaBanner := false

/-- C7 (amended): when the enhancer fails, `serviceEnhance` returns the
stitched input unchanged, `performEnhancement` stores it as the result,
and after the retiling merge completes every pre-existing tile inside the
stitched span keeps its pre-job pixels throughout its pre-job extent —
but, contrary to the unamended claim, the merged tile has its
`isEnhanced` flag set to `true` (and is padded to `T × T`), exactly as
any successful merge would. -/
theorem c7_amended_failure_noop_pixels (s : AppModel) (m : TileMap) (sX sY : ℤ)
    (cols rows : ℕ) (hm : s.tiles = m) (hb : tilesBounded m)
    (hs : s.stitchedEnhanceImage =
      some (stitchedImage m sX sY cols rows,
        ⟨sX * TILE_SIZE, sY * TILE_SIZE, (cols : ℤ) * TILE_SIZE, (rows : ℤ) * TILE_SIZE⟩))
    (dx dy : ℕ) (hdx : dx < cols) (hdy : dy < rows)
    (t : TileData) (ht : m (sX + dx, sY + dy) = some t) :
    serviceEnhance (stitchedImage m sX sY cols rows) none
      = (stitchedImage m sX sY cols rows, false) ∧
    ∃ t' : TileData,
      (enhancementOnload
          (performEnhancement s (some (serviceEnhance (stitchedImage m sX sY cols rows) none)))
          (stitchedImage m sX sY cols rows,
           ⟨sX * TILE_SIZE, sY * TILE_SIZE, (cols : ℤ) * TILE_SIZE,
            (rows : ℤ) * TILE_SIZE⟩)).tiles (sX + dx, sY + dy) = some t' ∧
      t'.isEnhanced = true ∧
      (∀ i j : ℕ, i < t.image.width → j < t.image.height →
        t'.image.px i j = t.image.px i j) := by
  refine ⟨rfl, ?_⟩
  have htiles : (enhancementOnload
      (performEnhancement s (some (serviceEnhance (stitchedImage m sX sY cols rows) none)))
      (stitchedImage m sX sY cols rows,
       ⟨sX * TILE_SIZE, sY * TILE_SIZE, (cols : ℤ) * TILE_SIZE,
        (rows : ℤ) * TILE_SIZE⟩)).tiles
      = mergeRetile m (stitchedImage m sX sY cols rows)
          ⟨sX * TILE_SIZE, sY * TILE_SIZE, (cols : ℤ) * TILE_SIZE, (rows : ℤ) * TILE_SIZE⟩ := by
    simp only [enhancementOnload, performEnhancement, serviceEnhance, hs, hm]
  refine ⟨⟨cropImage (stitchedImage m sX sY cols rows) ((dx : ℤ) * TILE_SIZE)
      ((dy : ℤ) * TILE_SIZE) TILE_SIZE TILE_SIZE, true⟩, ?_, rfl, ?_⟩
  · rw [htiles]
    exact mergeRetile_at_span m (stitchedImage m sX sY cols rows) sX sY cols rows dx dy hdx hdy
  · intro i j hi hj
    exact retile_of_stitched_preserves m sX sY cols rows hb dx dy hdx hdy t ht i j hi hj

/-- C7 counterexample: at the concrete one-tile world, the pre-job tile
at `(0, 0)` is unenhanced, yet after a failed enhancement (result equal to
the stitched input) completes, the tile at `(0, 0)` carries
`isEnhanced = true` — the claim's "its `isEnhanced` flag remains unset"
is false. -/
theorem c7_counterexample :
    ((tileizeTiles demoImage512 (0, 0)).map TileData.isEnhanced) = some false ∧
    (((enhancementOnload
        (performEnhancement stitchPendingState
          (some (serviceEnhance (stitchedImage (tileizeTiles demoImage512) 0 0 1 1) none)))
        (stitchedImage (tileizeTiles demoImage512) 0 0 1 1,
         ⟨0, 0, 512, 512⟩)).tiles (0, 0)).map TileData.isEnhanced) = some true := by
  constructor
  · rfl
  · rfl

/-- The tile `tileizeImage` stores at key `(0, 0)` of the one-tile demo
world. -/
def demoWorldTile : TileData :=
  ⟨cropImage demoImage512 (((0 * TILE_SIZE : ℕ) : ℤ)) (((0 * TILE_SIZE : ℕ) : ℤ))
    (min TILE_SIZE (demoImage512.width - 0 * TILE_SIZE))
    (min TILE_SIZE (demoImage512.height - 0 * TILE_SIZE)), false⟩

/-- Witness for C7 at the concrete one-tile world. -/
theorem c7_amended_failure_noop_pixels_w :
    serviceEnhance (stitchedImage (tileizeTiles demoImage512) 0 0 1 1) none
      = (stitchedImage (tileizeTiles demoImage512) 0 0 1 1, false) ∧
    ∃ t' : TileData,
      (enhancementOnload
          (performEnhancement stitchPendingState
            (some (serviceEnhance (stitchedImage (tileizeTiles demoImage512) 0 0 1 1) none)))
          (stitchedImage (tileizeTiles demoImage512) 0 0 1 1,
           ⟨0 * TILE_SIZE, 0 * TILE_SIZE, ((1 : ℕ) : ℤ) * TILE_SIZE,
            ((1 : ℕ) : ℤ) * TILE_SIZE⟩)).tiles ((0 : ℤ) + ((0 : ℕ) : ℤ), (0 : ℤ) + ((0 : ℕ) : ℤ))
        = some t' ∧
      t'.isEnhanced = true ∧
      (∀ i j : ℕ, i < demoWorldTile.image.width → j < demoWorldTile.image.height →
        t'.image.px i j = demoWorldTile.image.px i j) :=
  c7_amended_failure_noop_pixels stitchPendingState (tileizeTiles demoImage512) 0 0 1 1
    rfl (tileize_bounded demoImage512) rfl 0 0 (by decide) (by decide) demoWorldTile rfl

/-! ### C5: the GPS continuity rule -/

/-- For two points on the same meridian, one at the equator and one `t`
radians of latitude north (`0 ≤ t < π`), the haversine formula of
`calculateDistance` gives exactly the arc length `R * t`. -/
theorem calculateDistance_lat (t : ℝ) (h0 : 0 ≤ t) (hpi : t < Real.pi) :
    calculateDistance ⟨0, 0⟩ ⟨t * 180 / Real.pi, 0⟩ = 6371000 * t := by
  have hpipos := Real.pi_pos
  have hth0 : 0 ≤ t / 2 := by linarith
  have hthpi : t / 2 < Real.pi / 2 := by linarith
  have hsin : 0 ≤ Real.sin (t / 2) :=
    Real.sin_nonneg_of_nonneg_of_le_pi hth0 (by linarith)
  have hcos : 0 < Real.cos (t / 2) :=
    Real.cos_pos_of_mem_Ioo ⟨by linarith, hthpi⟩
  simp only [calculateDistance]
  rw [show (0:ℝ) * Real.pi / 180 = 0 by ring]
  rw [show t * 180 / Real.pi * Real.pi / 180 = t by field_simp]
  rw [show (t * 180 / Real.pi - 0) * Real.pi / 180 = t by field_simp]
  rw [show ((0:ℝ) - 0) * Real.pi / 180 = 0 by ring]
  rw [show (0:ℝ) / 2 = 0 by norm_num, Real.sin_zero, Real.cos_zero]
  rw [show Real.sin (t / 2) * Real.sin (t / 2) + 1 * Real.cos t * (0 * 0)
      = Real.sin (t / 2) * Real.sin (t / 2) by ring]
  rw [Real.sqrt_mul_self hsin]
  rw [show 1 - Real.sin (t / 2) * Real.sin (t / 2) = Real.cos (t / 2) * Real.cos (t / 2) by
    nlinarith [Real.sin_sq_add_cos_sq (t / 2)]]
  rw [Real.sqrt_mul_self hcos.le]
  simp only [atan2]
  rw [if_pos hcos]
  rw [← Real.tan_eq_sin_div_cos, Real.arctan_tan (by linarith) hthpi]
  ring

/-- The equator reference point. -/
def gpsOrigin : GPSCoordinates := ⟨0, 0⟩

/-- A point exactly 150 m due north of `gpsOrigin` (arc of `3/127420`
radians on the 6,371,000-m sphere). -/
noncomputable def gpsNorth150 : GPSCoordinates := ⟨(3 / 127420 : ℝ) * 180 / Real.pi, 0⟩

/-- A point exactly 50 m due north of `gpsOrigin`. -/
noncomputable def gpsNorth50 : GPSCoordinates := ⟨(1 / 127420 : ℝ) * 180 / Real.pi, 0⟩

theorem dist_gpsNorth150 : calculateDistance gpsOrigin gpsNorth150 = 150 := by
  have hpi3 := Real.pi_gt_three
  have h := calculateDistance_lat (3 / 127420) (by norm_num) (by linarith)
  have h2 : calculateDistance gpsOrigin gpsNorth150 = 6371000 * (3 / 127420 : ℝ) := h
  rw [h2]
  norm_num

theorem dist_gpsNorth50 : calculateDistance gpsOrigin gpsNorth50 = 50 := by
  have hpi3 := Real.pi_gt_three
  have h := calculateDistance_lat (1 / 127420) (by norm_num) (by linarith)
  have h2 : calculateDistance gpsOrigin gpsNorth50 = 6371000 * (1 / 127420 : ℝ) := h
  rw [h2]
  norm_num

/-- Transferring the baseline-GPS invariant between states that agree on
captures and the placeholder flag. -/
theorem baselineGpsInv_of_same (s s' : AppModel) (hinv : baselineGpsInv s)
    (h1 : s'.captures = s.captures) (h2 : s'.isDefaultWorld = s.isDefaultWorld) :
    baselineGpsInv s' := by
  intro h
  rw [h1]
  exact hinv (h2 ▸ h)

/-- Equation lemma: with no prior capture, `handleNewCapture` starts a
new world directly. -/
theorem handleNewCapture_nil (s : AppModel) (img : Image) (gps : Option GPSCoordinates)
    (orc : Option Bool) (hc : s.captures = []) :
    handleNewCapture s img gps orc = startNewWorld s img gps := by
  unfold handleNewCapture
  rw [hc]

/-- Equation lemma: with a baseline present, `handleNewCapture` acts on
the continuity decision. -/
theorem handleNewCapture_cons (s : AppModel) (img : Image) (gps : Option GPSCoordinates)
    (orc : Option Bool) (base : Capture) (rest : List Capture)
    (hc : s.captures = base :: rest) :
    handleNewCapture s img gps orc =
      match resolverDecision gps base.gps s.isDefaultWorld orc with
      | WorldDecision.NEW_WORLD => startNewWorld s img gps
      | WorldDecision.SAME_WORLD =>
        if s.isDefaultWorld = true then
          { s with captures := s.captures ++ [perspectiveCapture img gps],
                   appState := AppState.LOADED }
        else
          { s with captures := s.captures ++ [perspectiveCapture img gps] } := by
  unfold handleNewCapture
  rw [hc]

/-- The `handleNewCapture` either starts a fresh world or appends: in the
latter case the head capture, the placeholder flag and the tile store are
all unchanged. -/
theorem handleNewCapture_cases (s : AppModel) (img : Image) (gps : Option GPSCoordinates)
    (orc : Option Bool) :
    handleNewCapture s img gps orc = startNewWorld s img gps ∨
    ((handleNewCapture s img gps orc).captures.head? = s.captures.head? ∧
     (handleNewCapture s img gps orc).isDefaultWorld = s.isDefaultWorld ∧
     (handleNewCapture s img gps orc).tiles = s.tiles) := by
  cases hc : s.captures with
  | nil => exact Or.inl (handleNewCapture_nil s img gps orc hc)
  | cons base rest =>
    rw [handleNewCapture_cons s img gps orc base rest hc]
    cases resolverDecision gps base.gps s.isDefaultWorld orc with
    | NEW_WORLD => left; rfl
    | SAME_WORLD =>
      right
      by_cases hdf : s.isDefaultWorld = true
      · rw [if_pos hdf]
        exact ⟨by simp [hc], rfl, rfl⟩
      · rw [if_neg hdf]
        exact ⟨by simp [hc], rfl, rfl⟩

/-- Every modelled transition preserves the baseline-GPS invariant: a
placeholder world always has a GPS-less baseline. -/
theorem stepEvent_baselineGpsInv (s : AppModel) (e : AppEvent)
    (hinv : baselineGpsInv s) : baselineGpsInv (stepEvent s e) := by
  cases e with
  | newCapture img gps orc =>
    simp only [stepEvent]
    rcases handleNewCapture_cases s img gps orc with h | ⟨h1, h2, h3⟩
    · rw [h]
      intro hx
      simp [startNewWorld] at hx
    · intro hx b hb
      rw [h1] at hb
      exact hinv (h2.symm.trans hx) b hb
  | loadDefaultDone img =>
    simp only [stepEvent]
    unfold loadDefaultWorldDone
    cases hc : s.captures with
    | cons base rest =>
      exact hinv
    | nil =>
      intro h b hb
      simp only [List.head?_cons, Option.mem_def, Option.some.injEq] at hb
      subst hb
      rfl
  | reset =>
    intro h
    simp [stepEvent, resetState] at h
  | inpaint wr sr =>
    simp only [stepEvent, handleInpaint]
    split_ifs with h
    · exact hinv
    · exact baselineGpsInv_of_same s _ hinv rfl rfl
  | enhance svc =>
    simp only [stepEvent, performEnhancement]
    cases hse : s.stitchedEnhanceImage with
    | none => exact hinv
    | some p =>
      cases svc with
      | none => exact baselineGpsInv_of_same s _ hinv rfl rfl
      | some r => exact baselineGpsInv_of_same s _ hinv rfl rfl
  | enhanceComplete er =>
    exact baselineGpsInv_of_same s _ hinv rfl rfl

/-- C5: with both captures carrying GPS, the continuity decision is
`NEW_WORLD` exactly when the haversine distance (Earth radius
6,371,000 m) exceeds 100 m, and `SAME_WORLD` otherwise.  The first
conjunct states the equivalence for a non-placeholder world; the next two
conjuncts justify that restriction — every modelled transition preserves
the invariant that a placeholder world has a GPS-less baseline, so
whenever the baseline carries GPS the world is not a placeholder and the
oracle branch of the resolver is unreachable.  The last two conjuncts are
the claim's concrete instances: coordinates exactly 150 m apart yield
`NEW_WORLD`, and exactly 50 m apart yield `SAME_WORLD`. -/
theorem c5_gps_distance_decision :
    (∀ (g bg : GPSCoordinates) (orc : Option Bool),
      resolverDecision (some g) (some bg) false orc = WorldDecision.NEW_WORLD ↔
        calculateDistance g bg > 100) ∧
    (∀ (s : AppModel) (e : AppEvent), baselineGpsInv s → baselineGpsInv (stepEvent s e)) ∧
    (∀ (s : AppModel) (base : Capture) (rest : List Capture) (bg : GPSCoordinates),
      baselineGpsInv s → s.captures = base :: rest → base.gps = some bg →
        s.isDefaultWorld = false) ∧
    resolverDecision (some gpsOrigin) (some gpsNorth150) false none
      = WorldDecision.NEW_WORLD ∧
    resolverDecision (some gpsOrigin) (some gpsNorth50) false none
      = WorldDecision.SAME_WORLD := by
  have hdec : ∀ (g bg : GPSCoordinates) (orc : Option Bool),
      resolverDecision (some g) (some bg) false orc = WorldDecision.NEW_WORLD ↔
        calculateDistance g bg > 100 := by
    intro g bg orc
    have hcheck : ∀ d : Bool, isNewWorldGpsCheck (some g) (some bg) d = true ↔
        calculateDistance g bg > ((GPS_DISTANCE_THRESHOLD_METERS : ℕ) : ℝ) := by
      intro d
      simp only [isNewWorldGpsCheck]
      split_ifs with h
      · simpa using h
      · simp only [Bool.false_eq_true, false_iff]
        exact h
    simp only [resolverDecision]
    by_cases h : calculateDistance g bg > ((GPS_DISTANCE_THRESHOLD_METERS : ℕ) : ℝ)
    · rw [if_pos ((hcheck false).mpr h)]
      constructor
      · intro _
        exact_mod_cast h
      · intro _
        rfl
    · rw [if_neg (fun hx => h ((hcheck false).mp hx))]
      simp only [Bool.false_eq_true, if_false]
      constructor
      · intro hx
        exact absurd hx (by decide)
      · intro hgt
        exact absurd (by exact_mod_cast hgt) h
  refine ⟨hdec, stepEvent_baselineGpsInv, ?_, ?_, ?_⟩
  · intro s base rest bg hinv hc hg
    cases hdf : s.isDefaultWorld with
    | false => rfl
    | true =>
      have h2 := hinv hdf base (by simp [hc])
      rw [hg] at h2
      cases h2
  · rw [hdec gpsOrigin gpsNorth150 none, dist_gpsNorth150]
    norm_num
  · have h := (hdec gpsOrigin gpsNorth50 none).not
    rcases hr : resolverDecision (some gpsOrigin) (some gpsNorth50) false none with _ | _
    · exfalso
      have := (hdec gpsOrigin gpsNorth50 none).mp hr
      rw [dist_gpsNorth50] at this
      norm_num at this
    · rfl

/-- A concrete non-placeholder world whose baseline capture carries GPS. -/
def gpsBaseState : AppModel where
  appState := AppState.LOADED
  captures := [⟨CaptureType.EQUIRECTANGULAR, demoImage512, some gpsOrigin⟩]
  tiles := tileizeTiles demoImage512
  worldSize := (512, 512)
  pan := (0, 0)
  zoom := 1
  enhancementJob := none
  stitchedEnhanceImage := none
  enhancedResult := none
  isDefaultWorld := false
  hasFoundBanana := false
  showBananaBanner := false

/-- Witness for C5: applying the invariant-justification conjunct at a
concrete world whose baseline carries GPS shows that world is not a
placeholder. -/
theorem c5_gps_distance_decision_w :
    gpsBaseState.isDefaultWorld = false :=
  c5_gps_distance_decision.2.2.1 gpsBaseState
    ⟨CaptureType.EQUIRECTANGULAR, demoImage512, some gpsOrigin⟩ [] gpsOrigin
    (by intro h b hb; exact absurd h (by simp [gpsBaseState])) rfl rfl

/-! ### C6: oracle failure is conservative -/

/-- C6: on a placeholder (default) world where neither GPS rule fired, a
failing scene comparison decides `SAME_WORLD`: `serviceCompareScenes`
itself maps an API error to `true` ("same scene"), and a rejection
reaching `handleNewCapture`'s own `catch` likewise appends the capture —
either way the new capture is appended to the sequence and the existing
world's tiles are untouched. -/
theorem c6_oracle_failure_same_world (s : AppModel) (img : Image)
    (gps : Option GPSCoordinates) (base : Capture) (rest : List Capture)
    (hc : s.captures = base :: rest) (hd : s.isDefaultWorld = true)
    (hg : isNewWorldGpsCheck gps base.gps s.isDefaultWorld = false) :
    serviceCompareScenes (Except.error ()) = true ∧
    resolverDecision gps base.gps s.isDefaultWorld none = WorldDecision.SAME_WORLD ∧
    (handleNewCapture s img gps none).tiles = s.tiles ∧
    (handleNewCapture s img gps none).captures = s.captures ++ [perspectiveCapture img gps] ∧
    (handleNewCapture s img gps (some (serviceCompareScenes (Except.error ())))).tiles
      = s.tiles ∧
    (handleNewCapture s img gps (some (serviceCompareScenes (Except.error ())))).captures
      = s.captures ++ [perspectiveCapture img gps] := by
  have hng : ¬ (isNewWorldGpsCheck gps base.gps s.isDefaultWorld = true) := by
    simp [hg]
  have hres : ∀ orc : Option Bool, orc = none ∨ orc = some true →
      resolverDecision gps base.gps s.isDefaultWorld orc = WorldDecision.SAME_WORLD := by
    intro orc horc
    simp only [resolverDecision]
    rw [if_neg hng, if_pos hd]
    rcases horc with h | h <;> subst h <;> rfl
  have happ : ∀ orc : Option Bool,
      resolverDecision gps base.gps s.isDefaultWorld orc = WorldDecision.SAME_WORLD →
      (handleNewCapture s img gps orc).tiles = s.tiles ∧
      (handleNewCapture s img gps orc).captures
        = s.captures ++ [perspectiveCapture img gps] := by
    intro orc hsame
    rw [handleNewCapture_cons s img gps orc base rest hc, hsame]
    simp [hd]
  obtain ⟨ht1, hc1⟩ := happ none (hres none (Or.inl rfl))
  obtain ⟨ht2, hc2⟩ := happ (some (serviceCompareScenes (Except.error ())))
    (hres _ (Or.inr rfl))
  exact ⟨rfl, hres none (Or.inl rfl), ht1, hc1, ht2, hc2⟩

/-- The GPS-less baseline capture of the default placeholder world. -/
def defaultBaseCapture : Capture := ⟨CaptureType.EQUIRECTANGULAR, demoImage512, none⟩

/-- A concrete placeholder (default) world. -/
def defaultWorldState : AppModel where
  appState := AppState.LOADED
  captures := [defaultBaseCapture]
  tiles := tileizeTiles demoImage512
  worldSize := (512, 512)
  pan := (0, 0)
  zoom := 1
  enhancementJob := none
  stitchedEnhanceImage := none
  enhancedResult := none
  isDefaultWorld := true
  hasFoundBanana := false
  showBananaBanner := false

/-- Witness for C6 at the concrete placeholder world with a GPS-less new
capture. -/
theorem c6_oracle_failure_same_world_w :
    serviceCompareScenes (Except.error ()) = true ∧
    resolverDecision none defaultBaseCapture.gps defaultWorldState.isDefaultWorld none
      = WorldDecision.SAME_WORLD ∧
    (handleNewCapture defaultWorldState demoImage512 none none).tiles
      = defaultWorldState.tiles ∧
    (handleNewCapture defaultWorldState demoImage512 none none).captures
      = defaultWorldState.captures ++ [perspectiveCapture demoImage512 none] ∧
    (handleNewCapture defaultWorldState demoImage512 none
        (some (serviceCompareScenes (Except.error ())))).tiles = defaultWorldState.tiles ∧
    (handleNewCapture defaultWorldState demoImage512 none
        (some (serviceCompareScenes (Except.error ())))).captures
      = defaultWorldState.captures ++ [perspectiveCapture demoImage512 none] :=
  c6_oracle_failure_same_world defaultWorldState demoImage512 none defaultBaseCapture []
    rfl rfl rfl

end Infinizoomer
